import Mathlib

/-!
Verification model of `src/server.py` (Flask backend with endpoints
`/calculate`, `/text`, `/support`).

External effects (the Gemini generative API and the Apollo247 order API) are
modelled as oracle parameters: the handler receives, as input, the outcome the
provider would produce for the single call the handler can make, and the result
records whether each provider was actually called.  Python falsiness of the
relevant values (`None`, the empty string) is modelled explicitly.
-/

set_option autoImplicit false
set_option maxRecDepth 8192

namespace Server

/-- ASCII word character, modelling `\w` of Python `re` (the inputs of interest
are ASCII; `_` and alphanumerics). -/
def isWordChar (c : Char) : Bool := c.isAlphanum || c == '_'

/-- A word boundary holds next to `none` (start/end of text) or next to a
non-word character. -/
def boundaryOk : Option Char → Bool
  | none => true
  | some c => !isWordChar c

/-- Operational model of `re.search(r'\b(\d{7,})\b', text)` from
`src/server.py` line 193: scan left to right; `cur` is the current digit run
(reversed), `curOk` records whether the run started at a word boundary, `bnd`
whether the current position is preceded by start-of-text or a non-word
character.  Returns the digits of the first match. -/
def scanChars (bnd : Bool) (cur : List Char) (curOk : Bool) : List Char → Option (List Char)
  | [] => if curOk && decide (7 ≤ cur.length) then some cur.reverse else none
  | c :: cs =>
    if c.isDigit then
      scanChars false (c :: cur) (if cur.isEmpty then bnd else curOk) cs
    else
      if curOk && decide (7 ≤ cur.length) && !isWordChar c then some cur.reverse
      else scanChars (!isWordChar c) [] true cs

/-- Model of the `order_id` extraction of `src/server.py` lines 192-195: the captured group
of the first regex match, if any. -/
def extractOrderId (s : String) : Option String :=
  (scanChars true [] true s.data).map String.mk

/-- A maximal run of consecutive decimal digits in a text, together with the
characters (if any) immediately before and after it. -/
structure DigitRun where
  before : Option Char
  digits : List Char
  after : Option Char
deriving DecidableEq

/-- Decomposition of a text into its maximal digit runs.  `runPrev` is the
character preceding the current position (or the start of the current run),
`cur` the current run, reversed. -/
def runsAux (runPrev : Option Char) (cur : List Char) : List Char → List DigitRun
  | [] => if cur.isEmpty then [] else [⟨runPrev, cur.reverse, none⟩]
  | c :: cs =>
    if c.isDigit then runsAux runPrev (c :: cur) cs
    else if cur.isEmpty then runsAux (some c) [] cs
    else ⟨runPrev, cur.reverse, some c⟩ :: runsAux (some c) [] cs

/-- The maximal digit runs of a text. -/
def digitRuns (l : List Char) : List DigitRun := runsAux none [] l

/-- Spec wording: a digit run qualifies as an order ID when it has 7 or more
digits and is bounded by word boundaries on both sides. -/
def qualifies (r : DigitRun) : Bool :=
  decide (7 ≤ r.digits.length) && boundaryOk r.before && boundaryOk r.after

/-- Modelled from the spec wording for the order-ID rule: the first run of 7 or
more consecutive decimal digits bounded by word boundaries. -/
def firstQualifyingRun (l : List Char) : Option (List Char) :=
  ((digitRuns l).find? qualifies).map DigitRun.digits

/-- Python `s.lower()`. -/
def lowerStr (s : String) : String := String.mk (s.data.map Char.toLower)

/-- Python `s.strip()`: remove leading and trailing whitespace. -/
def pyStrip (s : String) : String :=
  String.mk (((s.data.dropWhile Char.isWhitespace).reverse.dropWhile Char.isWhitespace).reverse)

/-- Test that `needle` occurs as a contiguous sublist of the second argument. -/
def listContains (needle : List Char) : List Char → Bool
  | [] => needle.isEmpty
  | c :: cs => needle.isPrefixOf (c :: cs) || listContains needle cs

/-- Python `needle in hay` for strings. -/
def containsSub (hay needle : String) : Bool := listContains needle.data hay.data

/-- One entry of `orderItemDetails` in the order-provider payload.  Fields are
the rendered values used by the f-strings, `none` modelling an absent key
(Python `item.get(key, 'N/A')`). -/
structure OrderItem where
  name : Option String
  sku : Option String
  requestedQuantity : Option String
  approvedQuantity : Option String
deriving DecidableEq

/-- Parsed JSON payload of the order provider, as accessed by
`customer_support`.  For `cancellationReason`, the outer `Option` models key
absence and the inner one a JSON `null` value. -/
structure OrderResp where
  code : Option Int
  message : Option String
  cancellationReason : Option (Option String)
  orderItemDetails : Option (List OrderItem)
deriving DecidableEq

/-- Outcome of one Gemini call, as seen by the handlers.  `reqError` covers
`requests.exceptions.RequestException` (timeouts, connection errors, the
`raise_for_status` of a non-2xx reply, JSON decode errors).  `payload o` is a
decoded JSON body: `o = none` models a missing `candidates` key, otherwise the
candidate list, each candidate being `some text` when
`candidate['content']['parts'][0]['text']` exists and `none` when that access
raises (caught by the generic `except Exception`). -/
inductive GeminiResult where
  | reqError : GeminiResult
  | payload : Option (List (Option String)) → GeminiResult
deriving DecidableEq

/-- JSON body of a handler response. -/
inductive RespBody where
  | resultB : String → RespBody
  | errorB : String → RespBody
  | messageB : String → RespBody
  | orderJson : OrderResp → RespBody
  | cancellationB : Option String → String → RespBody
deriving DecidableEq

/-- Response of `/calculate` or `/text`: HTTP status, JSON body, and the prompt
text sent to Gemini (`none` when Gemini was not called). -/
structure EndpointResult where
  status : Nat
  body : RespBody
  promptSent : Option String
deriving DecidableEq

/-- Response of `/support`, additionally recording which providers were
called. -/
structure SupportResult where
  status : Nat
  body : RespBody
  calledOrderApi : Bool
  calledGemini : Bool
  promptSent : Option String
deriving DecidableEq

/-- Shared Gemini response handling (`response.raise_for_status()`;
`if 'candidates' in response_data and response_data['candidates']` ... ), used
verbatim by all three endpoints; `failMsg` is the endpoint-specific message of
the `RequestException` handler. -/
def geminiBranch (failMsg : String) : GeminiResult → Nat × RespBody
  | .reqError => (500, .errorB failMsg)
  | .payload none => (500, .errorB "Invalid response format from API")
  | .payload (some []) => (500, .errorB "Invalid response format from API")
  | .payload (some (c :: _)) =>
    match c with
    | some t => (200, .resultB t)
    | none => (500, .errorB "An unexpected error occurred")

/-- Python f-string rendering of a value that may be `None`. -/
def pyStr : Option String → String
  | none => "None"
  | some s => s

/-- The prompt built by `/calculate`:
`f'Calculate this mathematical expression: {expression}'`. -/
def calcPrompt (expression : Option String) : String :=
  "Calculate this mathematical expression: " ++ pyStr expression

/-- Handler of `POST /calculate` (`src/server.py` lines 77-123).
`expression = data.get('expression')` is never validated; Gemini's outcome is
the oracle parameter `gem`. -/
def calculate (gemKey : Option String) (expression : Option String)
    (gem : GeminiResult) : EndpointResult :=
  match gemKey with
  | none => ⟨500, .errorB "API key not configured", none⟩
  | some k =>
    if k = "" then ⟨500, .errorB "API key not configured", none⟩
    else
      ⟨(geminiBranch "Failed to calculate expression" gem).1,
        (geminiBranch "Failed to calculate expression" gem).2, some (calcPrompt expression)⟩

/-- Handler of `POST /text` (`src/server.py` lines 125-173).  A falsy `text`
(missing key, `null`, or empty string) is rejected with 400 before anything
else. -/
def process_text (gemKey : Option String) (text : Option String)
    (gem : GeminiResult) : EndpointResult :=
  match text with
  | none => ⟨400, .errorB "No text provided", none⟩
  | some q =>
    if q = "" then ⟨400, .errorB "No text provided", none⟩
    else
      match gemKey with
      | none => ⟨500, .errorB "API key not configured", none⟩
      | some k =>
        if k = "" then ⟨500, .errorB "API key not configured", none⟩
        else
          ⟨(geminiBranch "Failed to process text" gem).1,
            (geminiBranch "Failed to process text" gem).2, some q⟩

/-- The fixed message of `/support` lines 293 and 297. -/
def couldntFindMsg (oid : String) : String :=
  "I couldn\x27t find details for order ID " ++ oid ++ ". Please double-check the ID."

/-- Rendering of one order item inside `apollo_response` (lines 229-233). -/
def itemLine (it : OrderItem) : String :=
  "* **" ++ it.name.getD "N/A" ++ "** (SKU: " ++ it.sku.getD "N/A" ++ ")\n" ++
  "    * Requested Quantity: " ++ it.requestedQuantity.getD "N/A" ++ "\n" ++
  "    * Approved Quantity: " ++ it.approvedQuantity.getD "N/A" ++ "\n"

/-- Model of `apollo_response` of lines 221-235: the formatted order data. -/
def apolloResponse (oid : String) (cr : Option String) (items : List OrderItem) : String :=
  "**Order ID:** " ++ oid ++ "\n\n" ++
  "**Cancellation Reason:** " ++ pyStr cr ++ "\n\n" ++
  "**Items:**\n" ++
  (if items.isEmpty then "* No items found for this order.\n"
   else String.join (items.map itemLine))

/-- Model of `system_instruction` of lines 240-250 (order-context Gemini prompt). -/
def orderInstruction : String :=
  "You are a customer support agent for Apollo 24|7. " ++
  "Provide ACCURATE and CONCISE information directly relevant to the user\x27s query." ++
  "\n\n**Instructions:**" ++
  "\n*   **Do not introduce yourself.**" ++
  "\n*   **Answer based solely on the provided Order Information.**" ++
  "\n*   **If the \x27Cancellation Reason\x27 is \x27None\x27 or \x27N/A\x27, state explicitly that the order is NOT cancelled.** Do NOT invent a reason." ++
  "\n*   If order details are available, use them to answer the user\x27s question." ++
  "\n*   Be extremely concise. Avoid unnecessary phrases." ++
  "\n*  Do not include any additional information, other than requested."

/-- Model of `gemini_prompt` of lines 252-256. -/
def orderPrompt (q oid : String) (cr : Option String) (items : List OrderItem) : String :=
  orderInstruction ++ "\n\n" ++ "Customer query: " ++ q ++ "\n\n" ++
  "Order Information:\n" ++ apolloResponse oid cr items

/-- Model of `system_instruction` of lines 301-308 (general Gemini prompt). -/
def generalInstruction : String :=
  "You are a customer support agent for Apollo 24|7. " ++
  "Provide ACCURATE and CONCISE information directly relevant to the user\x27s query." ++
  "\n\n**Instructions:**" ++
  "\n*   **Do not introduce yourself.**" ++
  "\n*   Be extremely concise. Avoid unnecessary phrases." ++
  "\n*  Do not include any additional information, other than requested."

/-- Model of `gemini_prompt` of line 309. -/
def generalPrompt (q : String) : String :=
  generalInstruction ++ "\n\nCustomer query: " ++ q

/-- Model of `cancellation_reason = order_summary.get('cancellationReason', 'N/A')` of
line 213: an absent key yields the string `"N/A"`, a JSON `null` yields Python
`None` (modelled as `none`, serialised as JSON `null`). -/
def cancellationOf (os : OrderResp) : Option String :=
  match os.cancellationReason with
  | none => some "N/A"
  | some v => v

/-- Main body of the `/support` handler (`src/server.py` lines 176-337): every
executed `return` statement yields `some` result; falling through to the
trailing catch-all of line 340 would yield `none`.  `orderApi` is the oracle
for `get_order_summary` (`none` models a transport/decoding failure, which the
function converts to Python `None`); `gem` the Gemini oracle. -/
def customer_supportMain (auth gemKey text : Option String)
    (orderApi : Option OrderResp) (gem : GeminiResult) : Option SupportResult :=
  match auth with
  | none => some ⟨500, .errorB "Apollo247 authentication token is not properly configured", false, false, none⟩
  | some a =>
    if a = "" ∨ pyStrip a = "" then
      some ⟨500, .errorB "Apollo247 authentication token is not properly configured", false, false, none⟩
    else
      match text with
      | none => some ⟨400, .errorB "No text provided", false, false, none⟩
      | some q =>
        if q = "" then some ⟨400, .errorB "No text provided", false, false, none⟩
        else
          match gemKey with
          | none => some ⟨500, .errorB "Gemini API key not configured", false, false, none⟩
          | some k =>
            if k = "" then some ⟨500, .errorB "Gemini API key not configured", false, false, none⟩
            else
              match extractOrderId q with
              | some oid =>
                match orderApi with
                | some os =>
                  if os.code = some 200 ∧ os.message = some "Data found." then
                    if containsSub (lowerStr q) "summary" then
                      some ⟨200, .orderJson os, true, false, none⟩
                    else
                      if containsSub (lowerStr q) "cancellation reason" then
                        some ⟨200, .cancellationB (cancellationOf os) oid, true, false, none⟩
                      else
                        some ⟨(geminiBranch "Failed to process support request" gem).1,
                          (geminiBranch "Failed to process support request" gem).2, true, true,
                          some (orderPrompt q oid (cancellationOf os) (os.orderItemDetails.getD []))⟩
                  else some ⟨200, .messageB (couldntFindMsg oid), true, false, none⟩
                | none => some ⟨200, .messageB (couldntFindMsg oid), true, false, none⟩
              | none =>
                some ⟨(geminiBranch "Failed to process support request" gem).1,
                  (geminiBranch "Failed to process support request" gem).2, false, true,
                  some (generalPrompt q)⟩

/-- The `/support` handler including the trailing catch-all of line 340. -/
def customer_support (auth gemKey text : Option String)
    (orderApi : Option OrderResp) (gem : GeminiResult) : SupportResult :=
  (customer_supportMain auth gemKey text orderApi gem).getD
    ⟨400, .messageB "Invalid request", false, false, none⟩

/-- A response body that carries provider data (raw order JSON, the extracted
cancellation field, or Gemini-generated text). -/
def dataBearing : RespBody → Bool
  | .resultB _ => true
  | .orderJson _ => true
  | .cancellationB _ _ => true
  | _ => false

/-! ### Equivalence of the regex scan with the digit-run characterisation -/

theorem scanChars_bnd_irrel (rest : List Char) (x : Char) (xs : List Char)
    (b b' k : Bool) : scanChars b (x :: xs) k rest = scanChars b' (x :: xs) k rest := by
  cases rest with
  | nil => rfl
  | cons c cs => simp only [scanChars, List.isEmpty_cons, Bool.false_eq_true, if_false]

theorem scanChars_curOk_irrel (rest : List Char) (b k k' : Bool) :
    scanChars b [] k rest = scanChars b [] k' rest := by
  cases rest with
  | nil => simp [scanChars]
  | cons c cs =>
    by_cases hd : c.isDigit
    · simp [scanChars, hd]
    · simp [scanChars, hd]

theorem scanChars_eq_findRuns (rest : List Char) : ∀ (cur : List Char) (runPrev : Option Char),
    scanChars (boundaryOk runPrev) cur (boundaryOk runPrev) rest
      = ((runsAux runPrev cur rest).find? qualifies).map DigitRun.digits := by
  induction rest with
  | nil =>
    intro cur runPrev
    cases cur with
    | nil => simp [scanChars, runsAux]
    | cons x xs =>
      simp only [scanChars, runsAux, List.isEmpty_cons, Bool.false_eq_true, if_false]
      by_cases h1 : boundaryOk runPrev = true
      · by_cases h2 : 7 ≤ (x :: xs).length
        · rw [if_pos (by simp_all),
            List.find?_cons_of_pos _ (by simp_all [qualifies, boundaryOk])]
          rfl
        · rw [if_neg (by simp_all),
            List.find?_cons_of_neg _ (by simp_all [qualifies, boundaryOk]), List.find?_nil]
          rfl
      · rw [if_neg (by simp_all),
          List.find?_cons_of_neg _ (by simp_all [qualifies, boundaryOk]), List.find?_nil]
        rfl
  | cons c cs ih =>
    intro cur runPrev
    by_cases hd : c.isDigit
    · cases cur with
      | nil =>
        simp only [scanChars, runsAux, hd, if_true, List.isEmpty_nil]
        rw [scanChars_bnd_irrel cs c [] false (boundaryOk runPrev) (boundaryOk runPrev)]
        exact ih [c] runPrev
      | cons x xs =>
        simp only [scanChars, runsAux, hd, if_true, List.isEmpty_cons, Bool.false_eq_true,
          if_false]
        rw [scanChars_bnd_irrel cs c (x :: xs) false (boundaryOk runPrev) (boundaryOk runPrev)]
        exact ih (c :: x :: xs) runPrev
    · cases cur with
      | nil =>
        simp only [scanChars, runsAux, hd, Bool.false_eq_true, if_false, List.isEmpty_nil,
          if_true, List.length_nil, Bool.and_false, Bool.false_and]
        rw [scanChars_curOk_irrel cs (!isWordChar c) true (boundaryOk (some c))]
        have h := ih [] (some c)
        simpa [boundaryOk] using h
      | cons x xs =>
        simp only [scanChars, runsAux, hd, Bool.false_eq_true, if_false, List.isEmpty_cons]
        rw [scanChars_curOk_irrel cs (!isWordChar c) true (boundaryOk (some c))]
        rw [show (!isWordChar c) = boundaryOk (some c) from rfl, ih [] (some c)]
        by_cases h1 : boundaryOk runPrev = true
        · by_cases h2 : 7 ≤ (x :: xs).length
          · by_cases h3 : isWordChar c = true
            · rw [if_neg (by simp_all [boundaryOk]),
                List.find?_cons_of_neg _ (by simp_all [qualifies, boundaryOk])]
            · rw [if_pos (by simp_all [boundaryOk]),
                List.find?_cons_of_pos _ (by simp_all [qualifies, boundaryOk])]
              rfl
          · rw [if_neg (by simp_all),
              List.find?_cons_of_neg _ (by simp_all [qualifies, boundaryOk])]
        · rw [if_neg (by simp_all),
            List.find?_cons_of_neg _ (by simp_all [qualifies, boundaryOk])]

/-! ### Claims -/

/-- C1: for every input text, the identifier extractor returns the first run of
7 or more consecutive decimal digits (bounded by word boundaries, with no upper
bound on length) as the order ID, and for any text whose digit runs are all of
length 6 or less it extracts no order ID. -/
theorem C1_order_id_extraction (s : String) :
    extractOrderId s = (firstQualifyingRun s.data).map String.mk ∧
    ((∀ r ∈ digitRuns s.data, r.digits.length ≤ 6) → extractOrderId s = none) := by
  have hmain : scanChars true [] true s.data
      = ((digitRuns s.data).find? qualifies).map DigitRun.digits := by
    simpa [boundaryOk, digitRuns] using scanChars_eq_findRuns s.data [] none
  constructor
  · simp [extractOrderId, firstQualifyingRun, hmain]
  · intro h
    have hnone : (digitRuns s.data).find? qualifies = none := by
      rw [List.find?_eq_none]
      intro r hr hq
      have h7 : 7 ≤ r.digits.length := by
        simp [qualifies, Bool.and_eq_true, decide_eq_true_iff] at hq
        exact hq.1.1
      have h6 := h r hr
      omega
    simp [extractOrderId, hmain, hnone]

/-- Witness for C1 at a text whose only digit run has length 6. -/
theorem C1_order_id_extraction_witness :
    (∀ r ∈ digitRuns ("order 123456 now".data), r.digits.length ≤ 6) ∧
      extractOrderId "order 123456 now" = none :=
  ⟨by decide, (C1_order_id_extraction "order 123456 now").2 (by decide)⟩

/-- C7: for the input `"What is my cancellation reason for order 1234567?"`
with the provider returning code 200, message `"Data found."` and
cancellationReason `"Customer requested"`, the extractor yields `"1234567"`,
the cancellation-reason branch is taken (for any Gemini oracle, which is never
consulted), and the payload is exactly
`{cancellationReason: "Customer requested", orderId: "1234567"}` with
status 200. -/
theorem C7_scenario_a (gem : GeminiResult) :
    extractOrderId "What is my cancellation reason for order 1234567?" = some "1234567" ∧
    customer_support (some "tok") (some "key")
        (some "What is my cancellation reason for order 1234567?")
        (some ⟨some 200, some "Data found.", some (some "Customer requested"), none⟩) gem
      = ⟨200, .cancellationB (some "Customer requested") "1234567", true, false, none⟩ :=
  ⟨by decide, rfl⟩

/-- C10: the trailing catch-all of `/support` (line 340,
`{'message': 'Invalid request'}` with status 400) is unreachable: for every
request, some earlier branch already returns, i.e. the handler main body always
produces a response. -/
theorem C10_catch_all_unreachable (auth gemKey text : Option String)
    (orderApi : Option OrderResp) (gem : GeminiResult) :
    (customer_supportMain auth gemKey text orderApi gem).isSome = true := by
  cases auth with
  | none => rfl
  | some a =>
    simp only [customer_supportMain]
    repeat' split <;> try rfl

/-- C3 counterexample: a query containing both "summary" and
"cancellation reason" with a Found lookup returns the raw order summary, not
the cancellation-reason payload. -/
theorem C3_counterexample :
    containsSub (lowerStr "Give me the summary and cancellation reason for order 1234567")
        "summary" = true ∧
    containsSub (lowerStr "Give me the summary and cancellation reason for order 1234567")
        "cancellation reason" = true ∧
    customer_support (some "tok") (some "key")
        (some "Give me the summary and cancellation reason for order 1234567")
        (some ⟨some 200, some "Data found.", some (some "Customer requested"), none⟩)
        GeminiResult.reqError
      = ⟨200, .orderJson ⟨some 200, some "Data found.", some (some "Customer requested"), none⟩,
          true, false, none⟩ ∧
    (customer_support (some "tok") (some "key")
        (some "Give me the summary and cancellation reason for order 1234567")
        (some ⟨some 200, some "Data found.", some (some "Customer requested"), none⟩)
        GeminiResult.reqError).body
      ≠ .cancellationB (some "Customer requested") "1234567" := by
  refine ⟨by decide, by decide, rfl, by decide⟩

/-- C3 amended: the "summary" check is evaluated before the
"cancellation reason" check: for every /support query containing both (with a
Found lookup), the response is the raw order summary. -/
theorem C3_amended (a k q oid : String) (os : OrderResp) (gem : GeminiResult)
    (ha : ¬ a = "") (ha2 : ¬ pyStrip a = "") (hq : ¬ q = "") (hk : ¬ k = "")
    (hoid : extractOrderId q = some oid)
    (hcode : os.code = some 200) (hmsg : os.message = some "Data found.")
    (hs : containsSub (lowerStr q) "summary" = true)
    (_hc : containsSub (lowerStr q) "cancellation reason" = true) :
    customer_support (some a) (some k) (some q) (some os) gem
      = ⟨200, .orderJson os, true, false, none⟩ := by
  simp [customer_support, customer_supportMain, ha, ha2, hq, hk, hoid, hcode, hmsg, hs]

/-- Witness for C3 amended at the concrete counterexample input. -/
theorem C3_amended_witness :
    customer_support (some "tok") (some "key")
        (some "Give me the summary and cancellation reason for order 1234567")
        (some ⟨some 200, some "Data found.", some (some "Customer requested"), none⟩)
        GeminiResult.reqError
      = ⟨200, .orderJson ⟨some 200, some "Data found.", some (some "Customer requested"), none⟩,
          true, false, none⟩ :=
  C3_amended "tok" "key" "Give me the summary and cancellation reason for order 1234567"
    "1234567" ⟨some 200, some "Data found.", some (some "Customer requested"), none⟩
    GeminiResult.reqError (by decide) (by decide) (by decide) (by decide) (by decide)
    rfl rfl (by decide) (by decide)

/-- C4 counterexample: a transport failure of the order provider produces the
very same response as a business-level not-found reply — the fixed failure
message is not distinct from the NotFound message. -/
theorem C4_counterexample :
    customer_support (some "tok") (some "key") (some "Where is order 1234567")
        none GeminiResult.reqError
      = customer_support (some "tok") (some "key") (some "Where is order 1234567")
        (some ⟨some 401, some "Invalid token.", none, none⟩) GeminiResult.reqError ∧
    customer_support (some "tok") (some "key") (some "Where is order 1234567")
        none GeminiResult.reqError
      = ⟨200,
          .messageB "I couldn\x27t find details for order ID 1234567. Please double-check the ID.",
          true, false, none⟩ := by
  refine ⟨rfl, rfl⟩

/-- C4 amended: on a provider transport error the response is the fixed
"couldn\x27t find" message (the same one used for NotFound), at status 200, and
the generation provider is not called. -/
theorem C4_amended (a k q oid : String) (gem : GeminiResult)
    (ha : ¬ a = "") (ha2 : ¬ pyStrip a = "") (hq : ¬ q = "") (hk : ¬ k = "")
    (hoid : extractOrderId q = some oid) :
    customer_support (some a) (some k) (some q) none gem
      = ⟨200, .messageB (couldntFindMsg oid), true, false, none⟩ := by
  simp [customer_support, customer_supportMain, ha, ha2, hq, hk, hoid]

/-- Witness for C4 amended at a concrete transport-failure input. -/
theorem C4_amended_witness :
    customer_support (some "tok") (some "key") (some "Where is order 1234567")
        none GeminiResult.reqError
      = ⟨200, .messageB (couldntFindMsg "1234567"), true, false, none⟩ :=
  C4_amended "tok" "key" "Where is order 1234567" "1234567" GeminiResult.reqError
    (by decide) (by decide) (by decide) (by decide) (by decide)

/-- C5 counterexample: for the bare input "hi" the generation provider IS
called and the response is the generated text, not a fixed capability menu. -/
theorem C5_counterexample :
    (customer_support (some "tok") (some "key") (some "hi") none
        (.payload (some [some "Hello!"]))).calledGemini = true ∧
    (customer_support (some "tok") (some "key") (some "hi") none
        (.payload (some [some "Hello!"]))).body = .resultB "Hello!" := by
  refine ⟨rfl, rfl⟩

/-- C5 amended: the handler has no greeting branch: a bare "hi" extracts no
identifier and is routed to the general generation branch — the order provider
is not called, the generation provider is called, with the general preamble
plus the query as the prompt. -/
theorem C5_amended (a k : String) (orderApi : Option OrderResp) (gem : GeminiResult)
    (ha : ¬ a = "") (ha2 : ¬ pyStrip a = "") (hk : ¬ k = "") :
    (customer_support (some a) (some k) (some "hi") orderApi gem).calledOrderApi = false ∧
    (customer_support (some a) (some k) (some "hi") orderApi gem).calledGemini = true ∧
    (customer_support (some a) (some k) (some "hi") orderApi gem).promptSent
      = some (generalPrompt "hi") := by
  have hhi : extractOrderId "hi" = none := by decide
  simp [customer_support, customer_supportMain, ha, ha2, hk, hhi]

/-- Witness for C5 amended at concrete configuration values. -/
theorem C5_amended_witness :
    (customer_support (some "tok") (some "key") (some "hi") none
        GeminiResult.reqError).calledOrderApi = false ∧
    (customer_support (some "tok") (some "key") (some "hi") none
        GeminiResult.reqError).calledGemini = true ∧
    (customer_support (some "tok") (some "key") (some "hi") none
        GeminiResult.reqError).promptSent = some (generalPrompt "hi") :=
  C5_amended "tok" "key" none GeminiResult.reqError (by decide) (by decide) (by decide)

/-- C6 counterexample: with the Gemini key absent, a direct-answer request
(raw order summary, data Found) does NOT succeed — it returns the 500
configuration error — although the same request succeeds when the key is
present. -/
theorem C6_counterexample :
    customer_support (some "tok") none (some "Give me the summary for order 1234567")
        (some ⟨some 200, some "Data found.", some (some "Customer requested"), none⟩)
        GeminiResult.reqError
      = ⟨500, .errorB "Gemini API key not configured", false, false, none⟩ ∧
    customer_support (some "tok") (some "key") (some "Give me the summary for order 1234567")
        (some ⟨some 200, some "Data found.", some (some "Customer requested"), none⟩)
        GeminiResult.reqError
      = ⟨200, .orderJson ⟨some 200, some "Data found.", some (some "Customer requested"), none⟩,
          true, false, none⟩ := by
  refine ⟨rfl, rfl⟩

/-- C6 amended: a missing (or empty) generation-provider key disables ALL of
`/support`: every request with valid auth token and non-empty text returns the
fixed 500 configuration error before any branch runs — including the
direct-answer branches. -/
theorem C6_amended (a q : String) (gemKey : Option String) (orderApi : Option OrderResp)
    (gem : GeminiResult) (ha : ¬ a = "") (ha2 : ¬ pyStrip a = "") (hq : ¬ q = "")
    (hk : gemKey = none ∨ gemKey = some "") :
    customer_support (some a) gemKey (some q) orderApi gem
      = ⟨500, .errorB "Gemini API key not configured", false, false, none⟩ := by
  rcases hk with rfl | rfl <;>
    simp [customer_support, customer_supportMain, ha, ha2, hq]

/-- Witness for C6 amended at a concrete direct-answer request. -/
theorem C6_amended_witness :
    customer_support (some "tok") none (some "Give me the summary for order 1234567")
        (some ⟨some 200, some "Data found.", some (some "Customer requested"), none⟩)
        GeminiResult.reqError
      = ⟨500, .errorB "Gemini API key not configured", false, false, none⟩ :=
  C6_amended "tok" "Give me the summary for order 1234567" none
    (some ⟨some 200, some "Data found.", some (some "Customer requested"), none⟩)
    GeminiResult.reqError (by decide) (by decide) (by decide) (Or.inl rfl)

/-- C2: for every /support request in which an order ID was extracted, a
data-bearing response branch is reachable only if the provider call succeeded
and the payload satisfies code = 200 and message = "Data found."; a successful
call with a negative business status is answered with the NotFound message,
never a Found branch. -/
theorem C2_found_requires_positive_status (a k q oid : String)
    (orderApi : Option OrderResp) (gem : GeminiResult)
    (ha : ¬ a = "") (ha2 : ¬ pyStrip a = "") (hq : ¬ q = "") (hk : ¬ k = "")
    (hoid : extractOrderId q = some oid) :
    (dataBearing (customer_support (some a) (some k) (some q) orderApi gem).body = true →
      ∃ os, orderApi = some os ∧ os.code = some 200 ∧ os.message = some "Data found.") ∧
    (∀ os, orderApi = some os →
      ¬(os.code = some 200 ∧ os.message = some "Data found.") →
      customer_support (some a) (some k) (some q) orderApi gem
        = ⟨200, .messageB (couldntFindMsg oid), true, false, none⟩) := by
  constructor
  · intro hdb
    cases orderApi with
    | none =>
      simp [customer_support, customer_supportMain, ha, ha2, hq, hk, hoid, dataBearing] at hdb
    | some os =>
      by_cases hst : os.code = some 200 ∧ os.message = some "Data found."
      · exact ⟨os, rfl, hst⟩
      · simp [customer_support, customer_supportMain, ha, ha2, hq, hk, hoid, hst,
          dataBearing] at hdb
  · intro os hoa hst
    subst hoa
    simp [customer_support, customer_supportMain, ha, ha2, hq, hk, hoid, hst]

/-- Witness for C2 at a concrete request with an extracted order ID and a
negative business status. -/
theorem C2_found_requires_positive_status_witness :
    (dataBearing (customer_support (some "tok") (some "key") (some "Where is order 1234567")
        (some ⟨some 401, some "Invalid token.", none, none⟩) GeminiResult.reqError).body = true →
      ∃ os, (some ⟨some 401, some "Invalid token.", none, none⟩ : Option OrderResp) = some os ∧
        os.code = some 200 ∧ os.message = some "Data found.") ∧
    (∀ os, (some ⟨some 401, some "Invalid token.", none, none⟩ : Option OrderResp) = some os →
      ¬(os.code = some 200 ∧ os.message = some "Data found.") →
      customer_support (some "tok") (some "key") (some "Where is order 1234567")
          (some ⟨some 401, some "Invalid token.", none, none⟩) GeminiResult.reqError
        = ⟨200, .messageB (couldntFindMsg "1234567"), true, false, none⟩) :=
  C2_found_requires_positive_status "tok" "key" "Where is order 1234567" "1234567"
    (some ⟨some 401, some "Invalid token.", none, none⟩) GeminiResult.reqError
    (by decide) (by decide) (by decide) (by decide) (by decide)

/-- C8: a transport-successful Gemini reply whose candidates list is empty or
missing makes each endpoint (`/calculate`, `/text`, and both Gemini call sites
of `/support`) return the generic "Invalid response format from API" error
with status 500; an empty success is never returned. -/
theorem C8_empty_candidates (gem : GeminiResult) (expr : Option String)
    (orderApi : Option OrderResp) (a k q q2 oid : String) (os : OrderResp)
    (hg : gem = .payload none ∨ gem = .payload (some []))
    (hk : ¬ k = "") (ha : ¬ a = "") (ha2 : ¬ pyStrip a = "")
    (hq : ¬ q = "") (hnoid : extractOrderId q = none)
    (hq2 : ¬ q2 = "") (hoid2 : extractOrderId q2 = some oid)
    (hcode : os.code = some 200) (hmsg : os.message = some "Data found.")
    (hs : containsSub (lowerStr q2) "summary" = false)
    (hc : containsSub (lowerStr q2) "cancellation reason" = false) :
    (calculate (some k) expr gem).status = 500 ∧
    (calculate (some k) expr gem).body = .errorB "Invalid response format from API" ∧
    (process_text (some k) (some q) gem).status = 500 ∧
    (process_text (some k) (some q) gem).body = .errorB "Invalid response format from API" ∧
    (customer_support (some a) (some k) (some q) orderApi gem).status = 500 ∧
    (customer_support (some a) (some k) (some q) orderApi gem).body
      = .errorB "Invalid response format from API" ∧
    (customer_support (some a) (some k) (some q2) (some os) gem).status = 500 ∧
    (customer_support (some a) (some k) (some q2) (some os) gem).body
      = .errorB "Invalid response format from API" := by
  rcases hg with rfl | rfl <;>
    refine ⟨?_, ?_, ?_, ?_, ?_, ?_, ?_, ?_⟩ <;>
      simp [calculate, process_text, customer_support, customer_supportMain, geminiBranch,
        ha, ha2, hq, hk, hq2, hnoid, hoid2, hcode, hmsg, hs, hc]

/-- Witness for C8 at concrete inputs for every endpoint. -/
theorem C8_empty_candidates_witness :
    (calculate (some "key") none (.payload (some []))).status = 500 ∧
    (calculate (some "key") none (.payload (some []))).body
      = .errorB "Invalid response format from API" ∧
    (process_text (some "key") (some "hello there") (.payload (some []))).status = 500 ∧
    (process_text (some "key") (some "hello there") (.payload (some []))).body
      = .errorB "Invalid response format from API" ∧
    (customer_support (some "tok") (some "key") (some "hello there") none
        (.payload (some []))).status = 500 ∧
    (customer_support (some "tok") (some "key") (some "hello there") none
        (.payload (some []))).body = .errorB "Invalid response format from API" ∧
    (customer_support (some "tok") (some "key") (some "track order 1234567")
        (some ⟨some 200, some "Data found.", none, none⟩) (.payload (some []))).status = 500 ∧
    (customer_support (some "tok") (some "key") (some "track order 1234567")
        (some ⟨some 200, some "Data found.", none, none⟩) (.payload (some []))).body
      = .errorB "Invalid response format from API" :=
  C8_empty_candidates (.payload (some [])) none none "tok" "key" "hello there"
    "track order 1234567" "1234567" ⟨some 200, some "Data found.", none, none⟩
    (Or.inr rfl) (by decide) (by decide) (by decide) (by decide) (by decide) (by decide)
    (by decide) rfl rfl (by decide) (by decide)

/-- C9: `/calculate` performs no input validation: with a missing or null
`expression` the handler builds the prompt embedding the string "None" and, on
provider success, returns 200 with the generated text — while `/text` rejects
a missing `text` field with a 400 validation error before calling anything. -/
theorem C9_calculate_no_validation (k t : String) (rest : List (Option String))
    (gem2 : GeminiResult) (hk : ¬ k = "") :
    calcPrompt none = "Calculate this mathematical expression: None" ∧
    calculate (some k) none (.payload (some (some t :: rest)))
      = ⟨200, .resultB t, some (calcPrompt none)⟩ ∧
    process_text (some k) none gem2 = ⟨400, .errorB "No text provided", none⟩ := by
  refine ⟨rfl, ?_, rfl⟩
  simp [calculate, hk, geminiBranch]

/-- Witness for C9 at a concrete key and provider reply. -/
theorem C9_calculate_no_validation_witness :
    calcPrompt none = "Calculate this mathematical expression: None" ∧
    calculate (some "key") none (.payload (some [some "42"]))
      = ⟨200, .resultB "42", some (calcPrompt none)⟩ ∧
    process_text (some "key") none GeminiResult.reqError
      = ⟨400, .errorB "No text provided", none⟩ :=
  C9_calculate_no_validation "key" "42" [] GeminiResult.reqError (by decide)

end Server
